import Mathlib

/-!
Shallow embedding of the ink! token contract in `src/lib.rs`
(module `token`, struct `Token`).

Modelling conventions:
- `AccountId` is an opaque identifier, modelled as `Nat`.
- `u128` values are modelled as `Nat` together with explicit bounds checks
  against `U128_MAX`; `checked_add` / `checked_sub` mirror Rust's
  `u128::checked_add` / `u128::checked_sub`.
- `ink::storage::Mapping` is modelled as an association list with
  duplicate-free insertion (`mapInsert` replaces the key); `get` returning
  `Option` mirrors `Mapping::get`, and the `unwrap_or` defaults are applied
  at the call sites exactly as in the source.
- Each `#[ink(message)]` becomes a function `Token → (caller and arguments)
  → Except Error Unit × Token × List Event`: the result, the post-state of
  the storage struct, and the events emitted by `env().emit_event`.
  The post-state is the storage struct exactly as the Rust function body
  leaves it, including mutations performed before an early `Err` return.
-/

abbrev AccountId : Type := Nat

def U128_MAX : Nat := 2 ^ 128 - 1

/-- Rust `u128::checked_add`: `none` when the sum would exceed `u128::MAX`. -/
def checked_add (a b : Nat) : Option Nat :=
  if a + b ≤ U128_MAX then some (a + b) else none

/-- Rust `u128::checked_sub`: `none` when the subtraction would underflow. -/
def checked_sub (a b : Nat) : Option Nat :=
  if b ≤ a then some (a - b) else none

/-- `Mapping::get`: first (and only, keys are kept unique) entry for the key. -/
def mapGet {α β : Type} [DecidableEq α] : List (α × β) → α → Option β
  | [], _ => none
  | (k, v) :: rest, a => if a = k then some v else mapGet rest a

/-- `Mapping::insert`: set the value for the key, replacing any old value. -/
def mapInsert {α β : Type} [DecidableEq α] (m : List (α × β)) (k : α) (v : β) :
    List (α × β) :=
  (k, v) :: m.filter (fun p => decide (p.1 ≠ k))

/-- The `Error` enum of the contract. -/
inductive Error : Type where
  | InsufficientBalance
  | InsufficientAllowance
  | Unauthorized
  | Overflow
  | InvalidAmount
  | ContractPaused
  | AccountBlacklisted
  | SelfApproval
deriving DecidableEq, Repr

/-- The events the contract can emit (`Transfer`, `Approval`, `Paused`,
`BlacklistUpdated`, `OwnershipTransferred`). -/
inductive Event : Type where
  | Transfer (from_ to_ : Option AccountId) (value : Nat)
  | Approval (owner spender : AccountId) (value : Nat)
  | Paused (paused : Bool)
  | BlacklistUpdated (account : AccountId) (blacklisted : Bool)
  | OwnershipTransferred (previous_owner new_owner : AccountId)
deriving DecidableEq, Repr

/-- The `#[ink(storage)]` struct `Token`. -/
structure Token : Type where
  balances : List (AccountId × Nat)
  allowances : List ((AccountId × AccountId) × Nat)
  blacklist : List (AccountId × Bool)
  owner : AccountId
  total_supply : Nat
  paused : Bool
deriving DecidableEq, Repr

/-- The outcome of a message call: result, post-state, emitted events. -/
abbrev Outcome : Type := Except Error Unit × Token × List Event

/-- Constructor `new()`: empty mappings, caller as owner, zero supply. -/
def new (caller : AccountId) : Token :=
  { balances := []
    allowances := []
    blacklist := []
    owner := caller
    total_supply := 0
    paused := false }

/-- `balance_of`: `self.balances.get(account).unwrap_or(0)`. -/
def balance_of (s : Token) (account : AccountId) : Nat :=
  (mapGet s.balances account).getD 0

/-- `allowance`: `self.allowances.get((owner, spender)).unwrap_or(0)`. -/
def allowance (s : Token) (owner spender : AccountId) : Nat :=
  (mapGet s.allowances (owner, spender)).getD 0

/-- `is_blacklisted`: `self.blacklist.get(account).unwrap_or(false)`. -/
def is_blacklisted (s : Token) (account : AccountId) : Bool :=
  (mapGet s.blacklist account).getD false

/-- `is_paused`. -/
def is_paused (s : Token) : Bool :=
  s.paused

/-- The sum of all balances stored in the ledger (the spec's
"sum of all non-zero balances": absent keys contribute zero). -/
def sumBalances (s : Token) : Nat :=
  (s.balances.map (fun p => p.2)).sum

/-- `mint(to_, amount)`: owner-only, blacklist-checked, checked additions. -/
def mint (s : Token) (caller to_ : AccountId) (amount : Nat) : Outcome :=
  if caller ≠ s.owner then (.error .Unauthorized, s, [])
  else if is_blacklisted s to_ then (.error .AccountBlacklisted, s, [])
  else if amount = 0 then (.error .InvalidAmount, s, [])
  else
    match checked_add (balance_of s to_) amount with
    | none => (.error .Overflow, s, [])
    | some new_balance =>
      match checked_add s.total_supply amount with
      | none => (.error .Overflow, s, [])
      | some new_supply =>
        (.ok (),
         { s with balances := mapInsert s.balances to_ new_balance
                  total_supply := new_supply },
         [Event.Transfer none (some to_) amount])

/-- `burn(amount)`: pause- and blacklist-gated; note the source checks
balance sufficiency before the zero-amount check. -/
def burn (s : Token) (caller : AccountId) (amount : Nat) : Outcome :=
  if s.paused then (.error .ContractPaused, s, [])
  else if is_blacklisted s caller then (.error .AccountBlacklisted, s, [])
  else
    let balance := balance_of s caller
    if balance < amount then (.error .InsufficientBalance, s, [])
    else if amount = 0 then (.error .InvalidAmount, s, [])
    else
      match checked_sub balance amount with
      | none => (.error .Overflow, s, [])
      | some new_balance =>
        match checked_sub s.total_supply amount with
        | none => (.error .Overflow, s, [])
        | some new_supply =>
          (.ok (),
           { s with balances := mapInsert s.balances caller new_balance
                    total_supply := new_supply },
           [Event.Transfer (some caller) none amount])

/-- Private `_transfer(from, to_, amount)`: the debit insert happens first,
then the credit insert (which overwrites it when `from == to_`). -/
def _transfer (s : Token) (from_ to_ : AccountId) (amount : Nat) : Outcome :=
  if amount = 0 then (.error .InvalidAmount, s, [])
  else
    let from_balance := balance_of s from_
    if from_balance < amount then (.error .InsufficientBalance, s, [])
    else
      match checked_add (balance_of s to_) amount with
      | none => (.error .Overflow, s, [])
      | some new_to_balance =>
        match checked_sub from_balance amount with
        | none => (.error .Overflow, s, [])
        | some new_from_balance =>
          let balances' :=
            mapInsert (mapInsert s.balances from_ new_from_balance) to_
              new_to_balance
          (.ok (),
           { s with balances := balances' },
           [Event.Transfer (some from_) (some to_) amount])

/-- `transfer(to_, amount)`: pause- and blacklist-gated `_transfer`. -/
def transfer (s : Token) (caller to_ : AccountId) (amount : Nat) : Outcome :=
  if s.paused then (.error .ContractPaused, s, [])
  else if is_blacklisted s caller then (.error .AccountBlacklisted, s, [])
  else if is_blacklisted s to_ then (.error .AccountBlacklisted, s, [])
  else _transfer s caller to_ amount

/-- `approve(spender, amount)`: absolute set of the allowance. -/
def approve (s : Token) (caller spender : AccountId) (amount : Nat) : Outcome :=
  if caller = spender then (.error .SelfApproval, s, [])
  else if is_blacklisted s caller then (.error .AccountBlacklisted, s, [])
  else if is_blacklisted s spender then (.error .AccountBlacklisted, s, [])
  else
    (.ok (),
     { s with allowances := mapInsert s.allowances (caller, spender) amount },
     [Event.Approval caller spender amount])

/-- `transfer_from(from, to_, amount)`: the allowance is decremented and
stored before `_transfer` runs; an error from `_transfer` is propagated
with the allowance mutation already applied to the storage struct. -/
def transfer_from (s : Token) (caller from_ to_ : AccountId) (amount : Nat) :
    Outcome :=
  if s.paused then (.error .ContractPaused, s, [])
  else if is_blacklisted s from_ then (.error .AccountBlacklisted, s, [])
  else if is_blacklisted s to_ then (.error .AccountBlacklisted, s, [])
  else if is_blacklisted s caller then (.error .AccountBlacklisted, s, [])
  else
    let current_allowance := allowance s from_ caller
    if current_allowance < amount then (.error .InsufficientAllowance, s, [])
    else
      match checked_sub current_allowance amount with
      | none => (.error .Overflow, s, [])
      | some new_allowance =>
        let s1 : Token :=
          { s with allowances :=
              mapInsert s.allowances (from_, caller) new_allowance }
        _transfer s1 from_ to_ amount

/-- The validation pass of `batch_transfer`: blacklist check per recipient
and checked accumulation of the total amount. -/
def validateRecipients (s : Token) :
    List (AccountId × Nat) → Nat → Except Error Nat
  | [], total_amount => .ok total_amount
  | (to_, amount) :: rest, total_amount =>
    if is_blacklisted s to_ then .error .AccountBlacklisted
    else
      match checked_add total_amount amount with
      | none => .error .Overflow
      | some total_amount' => validateRecipients s rest total_amount'

/-- The application pass of `batch_transfer`: `_transfer` per entry,
skipping zero amounts, stopping at the first error (with the state
mutated by the entries already applied). -/
def applyRecipients (s : Token) (from_ : AccountId) :
    List (AccountId × Nat) → Outcome
  | [] => (.ok (), s, [])
  | (to_, amount) :: rest =>
    if amount > 0 then
      match _transfer s from_ to_ amount with
      | (.ok _, s', evs) =>
        match applyRecipients s' from_ rest with
        | (r, s'', evs') => (r, s'', evs ++ evs')
      | (.error e, s', evs) => (.error e, s', evs)
    else applyRecipients s from_ rest

/-- `batch_transfer(recipients)`: validate the whole list, then apply. -/
def batch_transfer (s : Token) (caller : AccountId)
    (recipients : List (AccountId × Nat)) : Outcome :=
  if s.paused then (.error .ContractPaused, s, [])
  else if is_blacklisted s caller then (.error .AccountBlacklisted, s, [])
  else
    match validateRecipients s recipients 0 with
    | .error e => (.error e, s, [])
    | .ok total_amount =>
      if balance_of s caller < total_amount then
        (.error .InsufficientBalance, s, [])
      else applyRecipients s caller recipients

/-- `pause()`: owner-only; already-paused is an eventless no-op success. -/
def pause (s : Token) (caller : AccountId) : Outcome :=
  if caller ≠ s.owner then (.error .Unauthorized, s, [])
  else if s.paused then (.ok (), s, [])
  else (.ok (), { s with paused := true }, [Event.Paused true])

/-- `unpause()`: owner-only; already-unpaused is an eventless no-op success. -/
def unpause (s : Token) (caller : AccountId) : Outcome :=
  if caller ≠ s.owner then (.error .Unauthorized, s, [])
  else if !s.paused then (.ok (), s, [])
  else (.ok (), { s with paused := false }, [Event.Paused false])

/-- `blacklist(account)`: owner-only; refuses to blacklist the owner. -/
def blacklist (s : Token) (caller account : AccountId) : Outcome :=
  if caller ≠ s.owner then (.error .Unauthorized, s, [])
  else if account = s.owner then (.error .Unauthorized, s, [])
  else
    (.ok (),
     { s with blacklist := mapInsert s.blacklist account true },
     [Event.BlacklistUpdated account true])

/-- `unblacklist(account)`: owner-only. -/
def unblacklist (s : Token) (caller account : AccountId) : Outcome :=
  if caller ≠ s.owner then (.error .Unauthorized, s, [])
  else
    (.ok (),
     { s with blacklist := mapInsert s.blacklist account false },
     [Event.BlacklistUpdated account false])

/-- `transfer_ownership(new_owner)`: owner-only, no validation of the
new owner. -/
def transfer_ownership (s : Token) (caller new_owner : AccountId) : Outcome :=
  if caller ≠ s.owner then (.error .Unauthorized, s, [])
  else
    (.ok (),
     { s with owner := new_owner },
     [Event.OwnershipTransferred s.owner new_owner])

/-- Setting the `paused` field, used to compare runs that differ only in
the pause flag. -/
def withPaused (s : Token) (b : Bool) : Token :=
  { s with paused := b }

theorem checked_add_eq_some {a b : Nat} (h : a + b ≤ U128_MAX) :
    checked_add a b = some (a + b) := by
  simp [checked_add, h]

theorem checked_sub_eq_some {a b : Nat} (h : b ≤ a) :
    checked_sub a b = some (a - b) := by
  simp [checked_sub, h]

theorem mapGet_insert_self {α β : Type} [DecidableEq α]
    (m : List (α × β)) (k : α) (v : β) :
    mapGet (mapInsert m k v) k = some v := by
  simp [mapInsert, mapGet]

theorem mapGet_filter_ne {α β : Type} [DecidableEq α]
    (m : List (α × β)) (k a : α) (h : a ≠ k) :
    mapGet (m.filter (fun p => decide (p.1 ≠ k))) a = mapGet m a := by
  induction m with
  | nil => rfl
  | cons p rest ih =>
    cases p with
    | mk k' v' =>
      simp only [ne_eq, decide_not] at ih ⊢
      by_cases hk : k' = k
      · subst hk
        simp [List.filter_cons, mapGet, h, ih]
      · simp [List.filter_cons, hk, mapGet, ih]

theorem mapGet_insert_of_ne {α β : Type} [DecidableEq α]
    (m : List (α × β)) (k a : α) (v : β) (h : a ≠ k) :
    mapGet (mapInsert m k v) a = mapGet m a := by
  show (if a = k then some v else
      mapGet (m.filter (fun p => decide (p.1 ≠ k))) a) = mapGet m a
  rw [if_neg h]
  exact mapGet_filter_ne m k a h

theorem withPaused_withPaused (s : Token) (b b' : Bool) :
    withPaused (withPaused s b) b' = withPaused s b' := by
  cases s
  simp [withPaused]

theorem withPaused_eq_self (s : Token) (h : s.paused = true) :
    withPaused s true = s := by
  cases s
  simp_all [withPaused]

/-- `mint` never reads or writes `paused`: on a state with the flag set to
`b` it behaves as on the base state, carrying the flag through. -/
theorem mint_withPaused (s : Token) (b : Bool) (caller to_ : AccountId)
    (amount : Nat) :
    mint (withPaused s b) caller to_ amount
      = ((mint s caller to_ amount).1,
         withPaused (mint s caller to_ amount).2.1 b,
         (mint s caller to_ amount).2.2) := by
  cases s with
  | mk bal alw bl ow ts p =>
    simp only [mint, withPaused, balance_of, is_blacklisted]
    split_ifs <;> try rfl
    cases checked_add ((mapGet bal to_).getD 0) amount <;>
      cases hs : checked_add ts amount <;> simp [hs]

theorem approve_withPaused (s : Token) (b : Bool) (caller spender : AccountId)
    (amount : Nat) :
    approve (withPaused s b) caller spender amount
      = ((approve s caller spender amount).1,
         withPaused (approve s caller spender amount).2.1 b,
         (approve s caller spender amount).2.2) := by
  cases s with
  | mk bal alw bl ow ts p =>
    simp only [approve, withPaused, is_blacklisted]
    split_ifs <;> rfl

theorem transfer_ownership_withPaused (s : Token) (b : Bool)
    (caller new_owner : AccountId) :
    transfer_ownership (withPaused s b) caller new_owner
      = ((transfer_ownership s caller new_owner).1,
         withPaused (transfer_ownership s caller new_owner).2.1 b,
         (transfer_ownership s caller new_owner).2.2) := by
  cases s with
  | mk bal alw bl ow ts p =>
    simp only [transfer_ownership, withPaused]
    split_ifs <;> rfl

theorem blacklist_withPaused (s : Token) (b : Bool)
    (caller account : AccountId) :
    blacklist (withPaused s b) caller account
      = ((blacklist s caller account).1,
         withPaused (blacklist s caller account).2.1 b,
         (blacklist s caller account).2.2) := by
  cases s with
  | mk bal alw bl ow ts p =>
    simp only [blacklist, withPaused]
    split_ifs <;> rfl

theorem unblacklist_withPaused (s : Token) (b : Bool)
    (caller account : AccountId) :
    unblacklist (withPaused s b) caller account
      = ((unblacklist s caller account).1,
         withPaused (unblacklist s caller account).2.1 b,
         (unblacklist s caller account).2.2) := by
  cases s with
  | mk bal alw bl ow ts p =>
    simp only [unblacklist, withPaused]
    split_ifs <;> rfl

/-- C1: the conservation invariant fails on the code. Starting from the
constructed state `new()` (caller and owner account `0`), `mint(0, 100)`
succeeds and then the self-transfer `transfer(0, 50)` by caller `0` also
succeeds, after which `total_supply` is `100` while the sum of all account
balances is `150`: the credit insert of `_transfer` overwrites the debit
insert when sender and recipient coincide, so a successful `transfer` does
not preserve `total_supply = sum of balances`. -/
theorem c1_conservation_violated :
    (mint (new 0) 0 0 100).1 = .ok () ∧
    (transfer (mint (new 0) 0 0 100).2.1 0 0 50).1 = .ok () ∧
    (transfer (mint (new 0) 0 0 100).2.1 0 0 50).2.1.total_supply = 100 ∧
    sumBalances (transfer (mint (new 0) 0 0 100).2.1 0 0 50).2.1 = 150 ∧
    (transfer (mint (new 0) 0 0 100).2.1 0 0 50).2.1.total_supply ≠
      sumBalances (transfer (mint (new 0) 0 0 100).2.1 0 0 50).2.1 := by
  refine ⟨rfl, rfl, rfl, rfl, ?_⟩
  decide

/-- C2: `transfer_from` is not atomic on failure. From `new()` with owner
and caller `0`, `approve(1, 100)` succeeds, leaving `allowance(0,1) = 100`
and `balance_of(0) = 0`. Account `1` then calls
`transfer_from(0, 2, 50)`: the allowance check passes, the allowance is
decremented and stored, and the balance-transfer step fails with
`InsufficientBalance` — but the post-state keeps `allowance(0,1) = 50`,
so the state is not as it was before the call. -/
theorem c2_transfer_from_not_atomic :
    (approve (new 0) 0 1 100).1 = .ok () ∧
    allowance (approve (new 0) 0 1 100).2.1 0 1 = 100 ∧
    balance_of (approve (new 0) 0 1 100).2.1 0 = 0 ∧
    (transfer_from (approve (new 0) 0 1 100).2.1 1 0 2 50).1 =
      .error .InsufficientBalance ∧
    allowance (transfer_from (approve (new 0) 0 1 100).2.1 1 0 2 50).2.1 0 1
      = 50 :=
  ⟨rfl, rfl, rfl, rfl, rfl⟩

/-- The pre-state of the C3 counterexample, reached from `new()` (owner `0`)
by `mint(0, u128::MAX)`, `transfer(2, u128::MAX - 10)` by `0`, and the
(conservation-breaking) self-transfer `transfer(2, 10)` by `2`; it has
`balance_of(0) = 10`, `balance_of(2) = u128::MAX`. -/
def c3_state : Token :=
  (transfer (transfer (mint (new 0) 0 0 U128_MAX).2.1 0 2 (U128_MAX - 10)).2.1
    2 2 10).2.1

/-- C3: `batch_transfer` is not all-or-nothing. In `c3_state` (reachable
from `new()`, with `balance_of(0) = 10`, `balance_of(1) = 0`,
`balance_of(2) = u128::MAX`), caller `0` invokes
`batch_transfer [(1, 5), (2, 1)]`: the up-front validation pass succeeds
(no blacklisted recipient, total `6 ≤ 10`), the first entry is applied,
and the second entry fails with `Overflow` (crediting account `2` would
exceed `u128::MAX`) — the call returns an error yet `balance_of(1)`
has changed from `0` to `5`. -/
theorem c3_batch_transfer_not_all_or_nothing :
    (mint (new 0) 0 0 U128_MAX).1 = .ok () ∧
    (transfer (mint (new 0) 0 0 U128_MAX).2.1 0 2 (U128_MAX - 10)).1
      = .ok () ∧
    (transfer (transfer (mint (new 0) 0 0 U128_MAX).2.1 0 2
        (U128_MAX - 10)).2.1 2 2 10).1 = .ok () ∧
    balance_of c3_state 0 = 10 ∧
    balance_of c3_state 1 = 0 ∧
    balance_of c3_state 2 = U128_MAX ∧
    (batch_transfer c3_state 0 [(1, 5), (2, 1)]).1 = .error .Overflow ∧
    balance_of (batch_transfer c3_state 0 [(1, 5), (2, 1)]).2.1 1 = 5 :=
  ⟨rfl, rfl, rfl, rfl, rfl, rfl, rfl, rfl⟩

/-- C9: the owner cannot be blacklisted: `blacklist(account)` called by the
owner with `account` equal to the current owner returns `Unauthorized` and
leaves the whole state (in particular the blacklist mapping) unchanged. -/
theorem c9_owner_cannot_be_blacklisted (s : Token) (caller account : AccountId)
    (h1 : caller = s.owner) (h2 : account = s.owner) :
    blacklist s caller account = (.error .Unauthorized, s, []) := by
  simp [blacklist, h1, h2]

/-- Witness for C9 at the constructed state `new 0` with caller and
account `0`. -/
theorem c9_witness :
    blacklist (new 0) 0 0 = (.error .Unauthorized, new 0, []) :=
  c9_owner_cannot_be_blacklisted (new 0) 0 0 rfl rfl

/-- C10: `transfer_ownership` performs no validation of the new owner:
called by the current owner it succeeds for every `new_owner`, and in
particular (concrete part, from `new()` with owner `0`) blacklisting
account `1` and then transferring ownership to `1` both succeed, after
which the current owner is blacklisted — so "the owner is never
blacklisted" is not an invariant of reachable states. -/
theorem c10_transfer_ownership_unvalidated (s : Token)
    (caller new_owner : AccountId) (h : caller = s.owner) :
    (transfer_ownership s caller new_owner).1 = .ok () ∧
    (transfer_ownership s caller new_owner).2.1.owner = new_owner ∧
    (blacklist (new 0) 0 1).1 = .ok () ∧
    (transfer_ownership (blacklist (new 0) 0 1).2.1 0 1).1 = .ok () ∧
    is_blacklisted (transfer_ownership (blacklist (new 0) 0 1).2.1 0 1).2.1
      ((transfer_ownership (blacklist (new 0) 0 1).2.1 0 1).2.1.owner)
      = true := by
  refine ⟨?_, ?_, rfl, rfl, rfl⟩ <;> simp [transfer_ownership, h]

/-- Witness for C10: ownership transfer from `new 0` (owner `0`) to
account `5` succeeds and installs `5` as owner. -/
theorem c10_witness :
    (transfer_ownership (new 0) 0 5).1 = .ok () ∧
    (transfer_ownership (new 0) 0 5).2.1.owner = 5 :=
  ⟨(c10_transfer_ownership_unvalidated (new 0) 0 5 rfl).1,
   (c10_transfer_ownership_unvalidated (new 0) 0 5 rfl).2.1⟩

theorem checked_add_eq_none {a b : Nat} (h : U128_MAX < a + b) :
    checked_add a b = none := by
  simp [checked_add, Nat.not_le.mpr h]

/-- C4 counterexample: the claim omits an overflow side condition. In the
state reached by `new()` (owner `0`) and `mint(0, u128::MAX)`, the contract
is not paused, caller `0` is not blacklisted, and
`0 < u128::MAX ≤ balance_of(0)` — yet the self-transfer
`transfer(0, u128::MAX)` by caller `0` does not succeed: it fails with
`Overflow`, because the credit computes `balance_of(0) + amount` past the
128-bit maximum. -/
theorem c4_counterexample :
    (mint (new 0) 0 0 U128_MAX).2.1.paused = false ∧
    is_blacklisted (mint (new 0) 0 0 U128_MAX).2.1 0 = false ∧
    0 < U128_MAX ∧
    U128_MAX ≤ balance_of (mint (new 0) 0 0 U128_MAX).2.1 0 ∧
    (transfer (mint (new 0) 0 0 U128_MAX).2.1 0 0 U128_MAX).1 =
      .error .Overflow := by
  refine ⟨rfl, rfl, ?_, ?_, rfl⟩ <;> decide

/-- C4 (amended): if additionally `balance_of(caller) + amount` does not
exceed the 128-bit maximum, a self-transfer succeeds and inflates the
caller's balance: `transfer(to, amount)` with `to = caller`, in an
unpaused state with the caller not blacklisted and
`0 < amount ≤ balance_of(caller)`, returns success, increases
`balance_of(caller)` by `amount` (the credit insert to the same key
overwrites the debit insert), and leaves `total_supply` unchanged. -/
theorem c4_self_transfer_inflates (s : Token) (caller : AccountId)
    (amount : Nat)
    (hp : s.paused = false)
    (hb : is_blacklisted s caller = false)
    (h0 : 0 < amount)
    (hle : amount ≤ balance_of s caller)
    (hmax : balance_of s caller + amount ≤ U128_MAX) :
    (transfer s caller caller amount).1 = .ok () ∧
    balance_of (transfer s caller caller amount).2.1 caller
      = balance_of s caller + amount ∧
    (transfer s caller caller amount).2.1.total_supply = s.total_supply := by
  have hne : amount ≠ 0 := Nat.pos_iff_ne_zero.mp h0
  have hnlt : ¬ balance_of s caller < amount := Nat.not_lt.mpr hle
  simp only [transfer, _transfer, hp, hb, hne, hnlt, if_false,
    Bool.false_eq_true, ite_false, checked_add_eq_some hmax,
    checked_sub_eq_some hle]
  simp [balance_of, mapGet_insert_self]

/-- Witness for C4 (amended): from `new()` with owner `0` and
`mint(0, 100)`, the self-transfer `transfer(0, 50)` by caller `0` succeeds
and leaves `balance_of(0) = 150` with `total_supply` still `100`. -/
theorem c4_witness :
    (transfer (mint (new 0) 0 0 100).2.1 0 0 50).1 = .ok () ∧
    balance_of (transfer (mint (new 0) 0 0 100).2.1 0 0 50).2.1 0
      = balance_of (mint (new 0) 0 0 100).2.1 0 + 50 ∧
    (transfer (mint (new 0) 0 0 100).2.1 0 0 50).2.1.total_supply
      = (mint (new 0) 0 0 100).2.1.total_supply :=
  c4_self_transfer_inflates (mint (new 0) 0 0 100).2.1 0 50 rfl rfl
    (by decide) (by decide) (by decide)

/-- C5: allowance independence. In an unpaused state with none of `from`,
`to`, caller blacklisted, `0 < amount`, `allowance(from, caller) ≥ amount`
and `balance_of(from) < amount`, `transfer_from(from, to, amount)` returns
`InsufficientBalance` (not `InsufficientAllowance`) and leaves every
account balance unchanged. -/
theorem c5_allowance_independence (s : Token) (caller from_ to_ : AccountId)
    (amount : Nat)
    (hp : s.paused = false)
    (hbf : is_blacklisted s from_ = false)
    (hbt : is_blacklisted s to_ = false)
    (hbc : is_blacklisted s caller = false)
    (h0 : 0 < amount)
    (hal : amount ≤ allowance s from_ caller)
    (hlt : balance_of s from_ < amount) :
    (transfer_from s caller from_ to_ amount).1 = .error .InsufficientBalance ∧
    ∀ a, balance_of (transfer_from s caller from_ to_ amount).2.1 a
      = balance_of s a := by
  have hne : amount ≠ 0 := Nat.pos_iff_ne_zero.mp h0
  have hnal : ¬ allowance s from_ caller < amount := Nat.not_lt.mpr hal
  simp only [transfer_from, _transfer, hp, hbf, hbt, hbc, hne, hnal, if_false,
    Bool.false_eq_true, ite_false, checked_sub_eq_some hal]
  simp only [balance_of] at hlt ⊢
  simp [hlt]

/-- Witness for C5: from `new()` with owner `0` and `approve(1, 100)` by
`0`, caller `1` invokes `transfer_from(0, 2, 50)`: it fails with
`InsufficientBalance` and `balance_of(0)` is unchanged. -/
theorem c5_witness :
    (transfer_from (approve (new 0) 0 1 100).2.1 1 0 2 50).1 =
      .error .InsufficientBalance ∧
    balance_of (transfer_from (approve (new 0) 0 1 100).2.1 1 0 2 50).2.1 0
      = balance_of (approve (new 0) 0 1 100).2.1 0 :=
  ⟨(c5_allowance_independence (approve (new 0) 0 1 100).2.1 1 0 2 50
      rfl rfl rfl rfl (by decide) (by decide) (by decide)).1,
   (c5_allowance_independence (approve (new 0) 0 1 100).2.1 1 0 2 50
      rfl rfl rfl rfl (by decide) (by decide) (by decide)).2 0⟩

/-- C6: the `mint` contract. When the caller is the owner, `to` is not
blacklisted, `amount > 0`, and neither `balance_of(to) + amount` nor
`total_supply + amount` exceeds the u128 maximum, `mint(to, amount)`
succeeds with `balance_of(to)` and `total_supply` both increased by
`amount`; otherwise it fails — with `Unauthorized` when the caller is not
the owner, `AccountBlacklisted` when the target is blacklisted,
`InvalidAmount` when the amount is zero, and `Overflow` when either
addition would wrap — leaving the state unchanged and emitting nothing. -/
theorem c6_mint_contract (s : Token) (caller to_ : AccountId) (amount : Nat) :
    (caller = s.owner → is_blacklisted s to_ = false → amount ≠ 0 →
      balance_of s to_ + amount ≤ U128_MAX →
      s.total_supply + amount ≤ U128_MAX →
      (mint s caller to_ amount).1 = .ok () ∧
      balance_of (mint s caller to_ amount).2.1 to_
        = balance_of s to_ + amount ∧
      (mint s caller to_ amount).2.1.total_supply
        = s.total_supply + amount) ∧
    (caller ≠ s.owner →
      mint s caller to_ amount = (.error .Unauthorized, s, [])) ∧
    (caller = s.owner → is_blacklisted s to_ = true →
      mint s caller to_ amount = (.error .AccountBlacklisted, s, [])) ∧
    (caller = s.owner → is_blacklisted s to_ = false → amount = 0 →
      mint s caller to_ amount = (.error .InvalidAmount, s, [])) ∧
    (caller = s.owner → is_blacklisted s to_ = false → amount ≠ 0 →
      (U128_MAX < balance_of s to_ + amount ∨
        U128_MAX < s.total_supply + amount) →
      (mint s caller to_ amount).1 = .error .Overflow ∧
      (mint s caller to_ amount).2.1 = s) := by
  refine ⟨?_, ?_, ?_, ?_, ?_⟩
  · intro h1 h2 h3 h4 h5
    simp only [mint, h1, h2, h3, if_false, Bool.false_eq_true, ite_false,
      not_true_eq_false, checked_add_eq_some h4, checked_add_eq_some h5]
    simp [balance_of, mapGet_insert_self]
  · intro h1
    simp [mint, h1]
  · intro h1 h2
    simp [mint, h1, h2]
  · intro h1 h2 h3
    simp [mint, h1, h2, h3]
  · intro h1 h2 h3 h4
    rcases h4 with h4 | h4
    · simp [mint, h1, h2, h3, checked_add_eq_none h4]
    · by_cases hb : balance_of s to_ + amount ≤ U128_MAX
      · simp [mint, h1, h2, h3, checked_add_eq_some hb,
          checked_add_eq_none h4]
      · simp [mint, h1, h2, h3,
          checked_add_eq_none (Nat.not_le.mp hb)]

/-- Witness for C6: from `new()` with owner `0`, `mint(1, 5)` by caller `0`
succeeds, setting `balance_of(1) = 5` and `total_supply = 5`. -/
theorem c6_witness :
    (mint (new 0) 0 1 5).1 = .ok () ∧
    balance_of (mint (new 0) 0 1 5).2.1 1 = balance_of (new 0) 1 + 5 ∧
    (mint (new 0) 0 1 5).2.1.total_supply = (new 0).total_supply + 5 :=
  (c6_mint_contract (new 0) 0 1 5).1 rfl rfl (by decide) (by decide)
    (by decide)

/-- C8: pause is idempotent. With the owner as caller, `pause()` twice in a
row succeeds both times and leaves `paused = true`; the first call emits
the `Paused` notification only when the flag was not already set, and the
second call emits nothing. Symmetrically, setting the flag to its current
value (`pause` when paused, `unpause` when unpaused) succeeds, emits no
notification, and leaves the state unchanged. -/
theorem c8_pause_idempotent (s : Token) (caller : AccountId)
    (h : caller = s.owner) :
    (pause s caller).1 = .ok () ∧
    (pause (pause s caller).2.1 caller).1 = .ok () ∧
    (pause (pause s caller).2.1 caller).2.1.paused = true ∧
    (s.paused = false → (pause s caller).2.2 = [Event.Paused true]) ∧
    (pause (pause s caller).2.1 caller).2.2 = [] ∧
    (s.paused = true → pause s caller = (.ok (), s, [])) ∧
    (s.paused = false → unpause s caller = (.ok (), s, [])) := by
  cases s with
  | mk bal alw bl ow ts p =>
    subst h
    cases p <;> simp [pause, unpause]

/-- Witness for C8 at the freshly constructed (unpaused) state `new 0`
with the owner `0` as caller. -/
theorem c8_witness :
    (pause (new 0) 0).1 = .ok () ∧
    (pause (pause (new 0) 0).2.1 0).1 = .ok () ∧
    (pause (pause (new 0) 0).2.1 0).2.1.paused = true ∧
    (pause (new 0) 0).2.2 = [Event.Paused true] ∧
    (pause (pause (new 0) 0).2.1 0).2.2 = [] ∧
    unpause (new 0) 0 = (.ok (), new 0, []) := by
  obtain ⟨h1, h2, h3, h4, h5, _, h7⟩ := c8_pause_idempotent (new 0) 0 rfl
  exact ⟨h1, h2, h3, h4 rfl, h5, h7 rfl⟩

/-- C7: pause gating. In any paused state, `transfer`, `transfer_from`,
`batch_transfer`, and `burn` return `ContractPaused` and change no state,
while `mint`, `approve`, `transfer_ownership`, `blacklist`, and
`unblacklist` return the same result with the same events and produce the
same state (apart from the pause flag staying set) as they would with
`paused = false`, the `allowance` query returns the same value, and
`pause` / `unpause` return the same result and produce the same state
apart from the pause flag. -/
theorem c7_pause_gating (s : Token) (h : s.paused = true) :
    (∀ caller to_ amount,
      transfer s caller to_ amount = (.error .ContractPaused, s, [])) ∧
    (∀ caller from_ to_ amount,
      transfer_from s caller from_ to_ amount
        = (.error .ContractPaused, s, [])) ∧
    (∀ caller recipients,
      batch_transfer s caller recipients = (.error .ContractPaused, s, [])) ∧
    (∀ caller amount,
      burn s caller amount = (.error .ContractPaused, s, [])) ∧
    (∀ caller to_ amount,
      mint s caller to_ amount
        = ((mint (withPaused s false) caller to_ amount).1,
           withPaused (mint (withPaused s false) caller to_ amount).2.1 true,
           (mint (withPaused s false) caller to_ amount).2.2)) ∧
    (∀ caller spender amount,
      approve s caller spender amount
        = ((approve (withPaused s false) caller spender amount).1,
           withPaused
             (approve (withPaused s false) caller spender amount).2.1 true,
           (approve (withPaused s false) caller spender amount).2.2)) ∧
    (∀ o sp, allowance s o sp = allowance (withPaused s false) o sp) ∧
    (∀ caller new_owner,
      transfer_ownership s caller new_owner
        = ((transfer_ownership (withPaused s false) caller new_owner).1,
           withPaused
             (transfer_ownership (withPaused s false) caller new_owner).2.1
             true,
           (transfer_ownership (withPaused s false) caller new_owner).2.2)) ∧
    (∀ caller account,
      blacklist s caller account
        = ((blacklist (withPaused s false) caller account).1,
           withPaused
             (blacklist (withPaused s false) caller account).2.1 true,
           (blacklist (withPaused s false) caller account).2.2)) ∧
    (∀ caller account,
      unblacklist s caller account
        = ((unblacklist (withPaused s false) caller account).1,
           withPaused
             (unblacklist (withPaused s false) caller account).2.1 true,
           (unblacklist (withPaused s false) caller account).2.2)) ∧
    (∀ caller,
      (pause s caller).1 = (pause (withPaused s false) caller).1 ∧
      withPaused (pause s caller).2.1 false
        = withPaused (pause (withPaused s false) caller).2.1 false) ∧
    (∀ caller,
      (unpause s caller).1 = (unpause (withPaused s false) caller).1 ∧
      withPaused (unpause s caller).2.1 false
        = withPaused (unpause (withPaused s false) caller).2.1 false) := by
  have hs : s = withPaused (withPaused s false) true := by
    rw [withPaused_withPaused, withPaused_eq_self s h]
  refine ⟨?_, ?_, ?_, ?_, ?_, ?_, ?_, ?_, ?_, ?_, ?_, ?_⟩
  · intro caller to_ amount
    simp [transfer, h]
  · intro caller from_ to_ amount
    simp [transfer_from, h]
  · intro caller recipients
    simp [batch_transfer, h]
  · intro caller amount
    simp [burn, h]
  · intro caller to_ amount
    rw [hs]
    exact mint_withPaused (withPaused s false) true caller to_ amount
  · intro caller spender amount
    rw [hs]
    exact approve_withPaused (withPaused s false) true caller spender amount
  · intro o sp
    rfl
  · intro caller new_owner
    rw [hs]
    exact transfer_ownership_withPaused (withPaused s false) true caller
      new_owner
  · intro caller account
    rw [hs]
    exact blacklist_withPaused (withPaused s false) true caller account
  · intro caller account
    rw [hs]
    exact unblacklist_withPaused (withPaused s false) true caller account
  · intro caller
    cases s with
    | mk bal alw bl ow ts p =>
      simp only at h
      subst h
      by_cases hc : caller = ow <;> simp [pause, withPaused, hc]
  · intro caller
    cases s with
    | mk bal alw bl ow ts p =>
      simp only at h
      subst h
      by_cases hc : caller = ow <;> simp [unpause, withPaused, hc]

/-- Witness for C7 at the concrete paused state reached by `pause()` from
`new 0`: `transfer` is rejected with `ContractPaused` and state unchanged,
while `mint` returns the same result as in the unpaused twin state. -/
theorem c7_witness :
    transfer (pause (new 0) 0).2.1 0 1 5
      = (.error .ContractPaused, (pause (new 0) 0).2.1, []) ∧
    (mint (pause (new 0) 0).2.1 0 1 5).1
      = (mint (withPaused (pause (new 0) 0).2.1 false) 0 1 5).1 := by
  have hg := c7_pause_gating (pause (new 0) 0).2.1 rfl
  refine ⟨hg.1 0 1 5, ?_⟩
  rw [hg.2.2.2.2.1 0 1 5]
